import Mathlib

/-!
# Shallow embedding of the VizAudio/libcanberra OSS driver (src/libcanberra-0.13/src/oss.c)

This file embeds the parts of `oss.c` that the verified properties are about:

* the CA status codes and the OS-errno translation (`translate_error`, oss.c:206),
* the device negotiation (`open_oss`, oss.c:230),
* the streaming worker loop (`thread_func`, oss.c:311), driven by an explicit
  environment of poll / read / write outcomes,
* the play entry point (`driver_play`, oss.c:405) with its guard, allocation,
  pipe, lookup, negotiation and thread-creation stages,
* the registry operations: `driver_cancel` (oss.c:467), the destroy broadcast
  and drain loop of `driver_destroy` (oss.c:127), and the worker's
  deregistration step (oss.c:391),
* an interleaving model of the race between the worker's final callback
  delivery and `driver_cancel` (oss.c:383-400 vs oss.c:476-498).

Stateful C code is embedded as explicit state passing; external calls (poll,
read, write, ioctl, pthread_create, ...) are driven by environments listing
their outcomes.  Machine integers are modelled as `Int`/`Nat` (no values in
this code approach any overflow boundary).
-/

namespace VizAudio

/-- The libcanberra status codes used in `oss.c`.  In `canberra.h`,
`CA_SUCCESS` is `0` and every error code is negative, so the C idiom
`ret < 0` is equivalent to `ret ≠ CA_SUCCESS`. -/
inductive CAStatus where
  | success
  | notSupported
  | invalid
  | state
  | oom
  | noDriver
  | system
  | corrupt
  | tooBig
  | notFound
  | destroyed
  | canceled
  | notAvailable
  | access
  | io
  deriving DecidableEq, Repr

/-- `ret < 0` on a `canberra.h` status: every code except `CA_SUCCESS` is
negative. -/
def CAStatus.isErr : CAStatus → Bool
  | .success => false
  | _ => true

/-- The OS error numbers distinguished by `translate_error` (oss.c:206);
`other` stands for every errno value not named in the switch. -/
inductive Errno where
  | enodev
  | enoent
  | eacces
  | eperm
  | enomem
  | ebusy
  | einval
  | enosys
  | other
  deriving DecidableEq, Repr

/-- `translate_error` (oss.c:206-228): fixed mapping from OS error numbers
to CA status codes; unrecognized codes fold into `CA_ERROR_IO`. -/
def translate_error : Errno → CAStatus
  | .enodev => .notFound
  | .enoent => .notFound
  | .eacces => .access
  | .eperm => .access
  | .enomem => .oom
  | .ebusy => .notAvailable
  | .einval => .invalid
  | .enosys => .notSupported
  | .other => .io

/-- The three sample encodings of `ca_sample_type_t` handled by the switch in
`open_oss` (oss.c:255-269). -/
inductive SampleType where
  | u8
  | s16ne
  | s16re
  deriving DecidableEq, Repr

/-- The AFMT code proposed to the device for each sample encoding
(oss.c:255-269); the numeric values are the OSS `AFMT_U8`, `AFMT_S16_NE`
and the byte-swapped format on a little-endian host.  Only their
distinctness matters to the control flow. -/
def afmt : SampleType → Int
  | .u8 => 8
  | .s16ne => 16
  | .s16re => 32

/-- The metadata of a `ca_sound_file` that `oss.c` consumes:
`ca_sound_file_get_nchannels`, `ca_sound_file_get_rate`,
`ca_sound_file_get_sample_type`, `ca_sound_file_frame_size`. -/
structure ca_sound_file where
  nchannels : Nat
  rate : Nat
  sampleType : SampleType
  frameSize : Nat
  deriving DecidableEq, Repr

/-- Outcome of one `ioctl` configuration exchange: an OS failure with an
errno, or acceptance with the value the device actually configured
(written back through the in/out argument). -/
inductive IoctlRes where
  | fail (e : Errno)
  | ok (accepted : Int)

/-- The behaviour of the OSS device as seen by `open_oss`: outcomes of
`open`, `fcntl(F_GETFL)`, `fcntl(F_SETFL)` and the three configuration
ioctls (each a function of the proposed value), plus the descriptor number
returned by a successful `open`. -/
structure OssDev where
  openRes : Option Errno
  fd : Nat
  getflRes : Option Errno
  setflRes : Option Errno
  setfmt : Int → IoctlRes
  setchannels : Int → IoctlRes
  setspeed : Int → IoctlRes

/-- Device-level operations performed by the driver, recorded as a trace. -/
inductive DevOp where
  | opn
  | getfl
  | setfl
  | ioctlFmt
  | ioctlChannels
  | ioctlSpeed
  | write
  deriving DecidableEq, Repr

/-- `open_oss` (oss.c:230-307).  Returns the status, the final value of
`out->pcm` (`-1` when the device was never opened, the descriptor
otherwise; failure paths do not close it — the caller's `outstanding_free`
does), and the trace of device operations performed.

The sample-rate tolerance check `fabs((double)(val - test)) > test * 0.05`
(oss.c:295) is embedded as the exact integer predicate
`20 * |val - test| > test`: for every pair of `int` arguments the double
computation decides exactly this rational comparison (the rounding error of
`test * 0.05` is far below the distance from `|val - test|` to `test / 20`
whenever the two sides are not exactly equal, and at exact equality the
strict comparison is false on both sides). -/
def open_oss (dev : OssDev) (file : ca_sound_file) : CAStatus × Int × List DevOp :=
  -- oss.c:240: ca_return_val_if_fail(ca_sound_file_get_nchannels(out->file) <= 2, CA_ERROR_NOTSUPPORTED)
  if 2 < file.nchannels then (.notSupported, -1, [])
  else
    match dev.openRes with
    | some e => (translate_error e, -1, [.opn])
    | none =>
      let pcm : Int := (dev.fd : Int)
      match dev.getflRes with
      | some e => (translate_error e, pcm, [.opn, .getfl])
      | none =>
        match dev.setflRes with
        | some e => (translate_error e, pcm, [.opn, .getfl, .setfl])
        | none =>
          let fmtReq : Int := afmt file.sampleType
          match dev.setfmt fmtReq with
          | .fail e => (translate_error e, pcm, [.opn, .getfl, .setfl, .ioctlFmt])
          | .ok v =>
            if v ≠ fmtReq then
              (.notSupported, pcm, [.opn, .getfl, .setfl, .ioctlFmt])
            else
              let chReq : Int := (file.nchannels : Int)
              match dev.setchannels chReq with
              | .fail e =>
                  (translate_error e, pcm, [.opn, .getfl, .setfl, .ioctlFmt, .ioctlChannels])
              | .ok v =>
                if v ≠ chReq then
                  (.notSupported, pcm, [.opn, .getfl, .setfl, .ioctlFmt, .ioctlChannels])
                else
                  let rateReq : Int := (file.rate : Int)
                  match dev.setspeed rateReq with
                  | .fail e =>
                      (translate_error e, pcm,
                       [.opn, .getfl, .setfl, .ioctlFmt, .ioctlChannels, .ioctlSpeed])
                  | .ok v =>
                    if file.rate < 20 * (v - rateReq).natAbs then
                      (.notSupported, pcm,
                       [.opn, .getfl, .setfl, .ioctlFmt, .ioctlChannels, .ioctlSpeed])
                    else
                      (.success, pcm,
                       [.opn, .getfl, .setfl, .ioctlFmt, .ioctlChannels, .ioctlSpeed])

/-! ## Streaming worker (`thread_func`, oss.c:311-403) -/

/-- `BUFSIZE` (oss.c:309): the fixed chunk size, `4*1024` bytes. -/
def BUFSIZE : Nat := 4 * 1024

/-- `data_size = (BUFSIZE/fs)*fs` (oss.c:326): the refill chunk, `BUFSIZE`
rounded down to a whole-frame boundary. -/
def data_size (fs : Nat) : Nat := (BUFSIZE / fs) * fs

/-- `POLLOUT` as found in `pfd[1].revents` (oss.c:355); the numeric value is
the Linux constant, only its distinctness from other revents masks matters. -/
def POLLOUT : Nat := 4

/-- Outcome of one `poll` call (oss.c:346): the return value (negative on
failure) and the `revents` masks of the cancellation-pipe entry `pfd[0]`
and the device entry `pfd[1]`. -/
structure PollOut where
  ret : Int
  rev0 : Nat
  rev1 : Nat
  deriving DecidableEq, Repr

/-- Outcome of one `ca_sound_file_read_arbitrary` call (oss.c:363): the
returned status (negative on failure) and, on success, the byte count
stored back into `nbytes` (`0` at end of stream). -/
structure ReadOut where
  ret : CAStatus
  bytes : Nat
  deriving DecidableEq, Repr

/-- Outcome of one `write` call (oss.c:372): the returned byte count
(`≤ 0` on failure) and the errno value in effect afterwards. -/
structure WriteOut where
  ret : Int
  errn : Errno
  deriving DecidableEq, Repr

/-- The worker-loop state: the bytes still buffered (`nbytes`), the offset of
the cursor `d` into the buffer `data`, and the outcomes the environment has
yet to deliver for poll, source read and device write. -/
structure LoopSt where
  nbytes : Nat
  cursor : Nat
  polls : List PollOut
  reads : List ReadOut
  writes : List WriteOut
  deriving DecidableEq, Repr

/-- Why the worker loop exited (which `break`/`goto finish` fired). -/
inductive ExitCause where
  | deadBreak
  | pipeBreak
  | pollFail
  | notWritable
  | readFail
  | eof
  | writeFail
  deriving DecidableEq, Repr

/-- One step of the loop either exits with a status and a cause, continues
with a new state, or gets stuck because the environment listed no further
outcome (the real loop would block). -/
inductive StepOut where
  | exit (s : CAStatus) (c : ExitCause) (st : LoopSt)
  | cont (st : LoopSt)
  | stuck

/-- The write stage of one loop iteration (oss.c:372-378):
`write(out->pcm, d, nbytes)`; a result `≤ 0` exits with
`translate_error(errno)`; otherwise `nbytes -= bytes_written` and
`d += bytes_written` and the loop continues. -/
def write_step (st : LoopSt) : StepOut :=
  match st.writes with
  | [] => .stuck
  | w :: ws =>
    let st' : LoopSt := { st with writes := ws }
    if w.ret ≤ 0 then .exit (translate_error w.errn) .writeFail st'
    else .cont { st' with nbytes := st'.nbytes - w.ret.toNat,
                          cursor := st'.cursor + w.ret.toNat }

/-- One iteration of the `for (;;)` loop of `thread_func` (oss.c:340-379),
with `deadNow` the value the unlocked read of `out->dead` (oss.c:343)
observes this time around:

1. `if (out->dead) break` — exits, and the `ret = CA_SUCCESS` after the
   loop makes the status `success`;
2. `poll(pfd, n_pfd, -1) < 0` — exits with `CA_ERROR_SYSTEM`;
3. `pfd[0].revents` nonzero — the cancellation pipe fired: exits (status
   `success` from the line after the loop, but `dead` is already true);
4. `pfd[1].revents != POLLOUT` — exits with `CA_ERROR_IO`;
5. empty buffer: refill from the source; a negative read status exits with
   that status; `nbytes == 0` after the read exits with `success` (end of
   stream); otherwise the cursor `d` resets to the buffer start;
6. write stage (`write_step`). -/
def loop_body (deadNow : Bool) (st : LoopSt) : StepOut :=
  if deadNow then .exit .success .deadBreak st
  else
    match st.polls with
    | [] => .stuck
    | po :: ps =>
      let st1 : LoopSt := { st with polls := ps }
      if po.ret < 0 then .exit .system .pollFail st1
      else if po.rev0 ≠ 0 then .exit .success .pipeBreak st1
      else if po.rev1 ≠ POLLOUT then .exit .io .notWritable st1
      else if st1.nbytes = 0 then
        match st1.reads with
        | [] => .stuck
        | r :: rs =>
          let st2 : LoopSt := { st1 with reads := rs }
          if r.ret.isErr then .exit r.ret .readFail st2
          else if r.bytes = 0 then .exit .success .eof st2
          else write_step { st2 with nbytes := r.bytes, cursor := 0 }
      else write_step st1

/-- The worker loop run to completion with `fuel` iterations available;
`deadSeq i` is the value the iteration-`i` read of `out->dead` observes
(constant `false` when no cancel/destroy ever touches the request).
Returns the final status, the exit cause and the state at exit, or `none`
when the fuel or the listed environment outcomes run out. -/
def run_loop (deadSeq : Nat → Bool) : Nat → Nat → LoopSt → Option (CAStatus × ExitCause × LoopSt)
  | 0, _, _ => none
  | fuel + 1, i, st =>
    match loop_body (deadSeq i) st with
    | .exit s c st' => some (s, c, st')
    | .cont st' => run_loop deadSeq fuel (i + 1) st'
    | .stuck => none

/-! ## Play entry point (`driver_play`, oss.c:405-465) and `outstanding_free` -/

/-- The resource-bearing fields of `struct outstanding` (oss.c:59-69) as
`driver_play` builds them up: the device descriptor `pcm`, the two pipe
descriptors, and the sample-source handle (`none` = NULL).  Descriptors are
`-1` when not open, following the code's own convention. -/
structure OutRec where
  pcm : Int
  pipe0 : Int
  pipe1 : Int
  file : Option ca_sound_file
  deriving DecidableEq, Repr

/-- What `outstanding_free` closes (oss.c:82-100). -/
structure FreeEffect where
  closedPipe1 : Bool
  closedPipe0 : Bool
  closedFile : Bool
  closedPcm : Bool
  deriving DecidableEq, Repr

/-- `outstanding_free` (oss.c:82-100) applied to a possibly-NULL pointer:
the first component records whether the entry assertion `ca_assert(o)`
holds (it fails on NULL, and then nothing is closed or freed); on a
non-NULL record each open descriptor is closed and the file handle, if
any, is released. -/
def outstanding_free : Option OutRec → Bool × FreeEffect
  | none => (false, ⟨false, false, false, false⟩)
  | some o => (true, ⟨decide (0 ≤ o.pipe1), decide (0 ≤ o.pipe0),
                      o.file.isSome, decide (0 ≤ o.pcm)⟩)

/-- The outcomes of the external calls `driver_play` makes, in program
order: `ca_new0` (allocation), `pipe` (with the descriptors it yields on
success), `ca_lookup_sound`, the device behaviour for `open_oss`, and the
value the code compares `pthread_create`'s result against zero
(`< 0` is the failure branch, oss.c:446). -/
structure PlayEnv where
  allocOk : Bool
  pipeOk : Bool
  pipe0fd : Nat
  pipe1fd : Nat
  lookupRes : Except CAStatus ca_sound_file
  dev : OssDev
  pthreadCreateRet : Int

/-- The observable outcome of one `driver_play` call: the returned status;
whether an outstanding record was allocated; the argument
`outstanding_free` was invoked with on the cleanup path (`none` = not
invoked, `some none` = invoked with a NULL pointer); whether the request
is still registered when the call returns; whether a worker thread was
spawned; and the device operations performed. -/
structure PlayResult where
  ret : CAStatus
  allocated : Bool
  freeCall : Option (Option OutRec)
  registered : Bool
  workerSpawned : Bool
  devOps : List DevOp
  deriving DecidableEq, Repr

/-- `driver_play` (oss.c:405-465) for a valid context and proplist, with
`hasCb`/`hasUd` the NULL-ness of the `cb`/`userdata` arguments:

* oss.c:413 `ca_return_val_if_fail(!userdata || cb, CA_ERROR_INVALID)` —
  immediate return, before any allocation or side effect;
* oss.c:418-421 allocation failure — `ret = CA_ERROR_OOM`, `goto finish`
  with `out` still NULL, so `outstanding_free(NULL)` runs;
* oss.c:430-433 `pipe` failure — `ret = CA_ERROR_SYSTEM`;
* oss.c:435 lookup failure — its negative status is returned;
* oss.c:438 negotiation failure — `open_oss`'s status is returned;
* oss.c:442-454 register, then `pthread_create`; on its failure branch
  `ret = CA_ERROR_OOM` and the request is unregistered again;
* oss.c:458-462 `finish`: on every non-`CA_SUCCESS` return,
  `outstanding_free(out)` runs. -/
def driver_play (env : PlayEnv) (hasCb hasUd : Bool) : PlayResult :=
  if hasUd && !hasCb then
    { ret := .invalid, allocated := false, freeCall := none,
      registered := false, workerSpawned := false, devOps := [] }
  else if !env.allocOk then
    { ret := .oom, allocated := false, freeCall := some none,
      registered := false, workerSpawned := false, devOps := [] }
  else
    let out0 : OutRec := { pcm := -1, pipe0 := -1, pipe1 := -1, file := none }
    if !env.pipeOk then
      { ret := .system, allocated := true, freeCall := some (some out0),
        registered := false, workerSpawned := false, devOps := [] }
    else
      let out1 : OutRec := { out0 with pipe0 := (env.pipe0fd : Int),
                                       pipe1 := (env.pipe1fd : Int) }
      match env.lookupRes with
      | .error e =>
        { ret := e, allocated := true, freeCall := some (some out1),
          registered := false, workerSpawned := false, devOps := [] }
      | .ok file =>
        let r := open_oss env.dev file
        let out2 : OutRec := { out1 with file := some file, pcm := r.2.1 }
        if r.1.isErr then
          { ret := r.1, allocated := true, freeCall := some (some out2),
            registered := false, workerSpawned := false, devOps := r.2.2 }
        else if env.pthreadCreateRet < 0 then
          { ret := .oom, allocated := true, freeCall := some (some out2),
            registered := false, workerSpawned := false, devOps := r.2.2 }
        else
          { ret := .success, allocated := true, freeCall := none,
            registered := true, workerSpawned := true, devOps := r.2.2 }

/-! ## Registry: cancel, destroy broadcast, drain loop, deregistration -/

/-- A registry entry as cancel/destroy see it: the caller-supplied id, the
`dead` flag, whether a completion callback was supplied, and the write end
of the cancellation pipe (`-1` when already closed). -/
structure Outstanding where
  id : Nat
  dead : Bool
  hasCallback : Bool
  pipe1 : Int
  deriving DecidableEq, Repr

/-- A completion-callback invocation observed by the caller. -/
structure CbEvent where
  id : Nat
  status : CAStatus
  deriving DecidableEq, Repr

/-- The per-entry body shared by `driver_cancel` (oss.c:478-496) and the
destroy broadcast (oss.c:140-155): entries that fail the `hit` test or are
already `dead` are skipped (`continue`); otherwise `dead` is set, the
callback — if one was supplied — fires with `status`, and the write end of
the cancellation pipe is closed. -/
def mark_dead_one (status : CAStatus) (hit : Outstanding → Bool) (o : Outstanding) :
    Outstanding × List CbEvent :=
  if hit o && !o.dead then
    ({ o with dead := true, pipe1 := -1 },
     if o.hasCallback then [⟨o.id, status⟩] else [])
  else (o, [])

/-- The full locked scan over the registry list, returning the updated list
and the callback events fired, in list order. -/
def mark_dead_all (status : CAStatus) (hit : Outstanding → Bool)
    (reg : List Outstanding) : List Outstanding × List CbEvent :=
  (reg.map (fun o => (mark_dead_one status hit o).1),
   reg.flatMap (fun o => (mark_dead_one status hit o).2))

/-- `driver_cancel` (oss.c:467-501): under the registry lock, every live
entry whose id equals the argument is marked dead, gets a `Canceled`
callback and has its cancellation pipe closed; the call always returns
`CA_SUCCESS`. -/
def driver_cancel (reg : List Outstanding) (id : Nat) :
    (List Outstanding × List CbEvent) × CAStatus :=
  (mark_dead_all .canceled (fun o => o.id == id) reg, .success)

/-- The broadcast phase of `driver_destroy` (oss.c:140-155): identical scan
with every entry matching and status `CA_ERROR_DESTROYED`. -/
def destroy_broadcast (reg : List Outstanding) : List Outstanding × List CbEvent :=
  mark_dead_all .destroyed (fun _ => true) reg

/-- The drain loop of `driver_destroy` (oss.c:159-164):
`while (p->outstanding) { unlock; sem_wait; lock; }`.  `obs` lists the
registry contents observed under the lock: `obs[0]` at loop entry and
`obs[i]` after the `i`-th `sem_wait` wakeup.  The result is the number of
`sem_wait` calls performed before the loop terminates (`none` when the
listed observations never become empty). -/
def drain_loop : List (List Outstanding) → Option Nat
  | [] => none
  | reg :: rest =>
    if reg = [] then some 0
    else (drain_loop rest).map (· + 1)

/-- The worker's deregistration step (oss.c:391-396), under the lock: the
node at index `i` is unlinked, and the semaphore is posted exactly when the
list is now empty and `signal_semaphore` is set. -/
def worker_unregister (reg : List Outstanding) (i : Nat) (signalSem : Bool) :
    List Outstanding × Bool :=
  let reg' := reg.eraseIdx i
  (reg', reg'.isEmpty && signalSem)

/-! ## Callback-delivery race (worker finish path vs `driver_cancel`)

The worker's finish path (oss.c:383-400) reads `out->dead` and invokes the
completion callback (oss.c:387-389) *before* taking `p->outstanding_mutex`
(oss.c:391); `driver_cancel`'s scan (oss.c:476-498) runs entirely under that
mutex.  The atomic units of a sequentially consistent interleaving are
therefore: the worker's unlocked read of `dead`, the worker's unlocked
callback invocation, the worker's locked deregistration, and the whole
locked cancel scan — which may be scheduled between any two of the worker's
unlocked steps. -/

/-- State of one outstanding request (callback supplied) during the finish
race: the `dead` flag, whether the node is still linked in the registry,
the value the worker's finish-path read of `dead` observed (oss.c:387),
the worker's final loop status `ret`, and the callbacks delivered so far. -/
structure RaceSt where
  dead : Bool
  inList : Bool
  sawNotDead : Bool
  finalRet : CAStatus
  events : List CAStatus
  deriving DecidableEq, Repr

/-- The atomic actions of the interleaving. -/
inductive Act where
  /-- oss.c:387: the worker evaluates `!out->dead`, holding no lock. -/
  | wCheckDead
  /-- oss.c:388-389: the worker invokes `out->callback(…, ret, …)` if its
  check observed `dead` false, still holding no lock. -/
  | wCallback
  /-- oss.c:391-400: the worker locks, unlinks the node, posts the
  semaphore when applicable, frees the request, unlocks. -/
  | wDeregister
  /-- oss.c:476-498: the whole locked `driver_cancel` body for this
  request: if it is still linked and not dead, set `dead`, invoke the
  callback with `CA_ERROR_CANCELED`, close the cancellation pipe. -/
  | cancelScan
  deriving DecidableEq, Repr

/-- One atomic step of the race model. -/
def race_step (st : RaceSt) : Act → RaceSt
  | .wCheckDead => { st with sawNotDead := !st.dead }
  | .wCallback =>
      if st.sawNotDead then { st with events := st.events ++ [st.finalRet] }
      else st
  | .wDeregister => { st with inList := false }
  | .cancelScan =>
      if st.inList && !st.dead then
        { st with dead := true, events := st.events ++ [.canceled] }
      else st

/-- Run a schedule of atomic actions from a given state. -/
def race_run (st : RaceSt) : List Act → RaceSt
  | [] => st
  | a :: rest => race_run (race_step st a) rest

/-- A request that just completed its loop with status `ret`: not dead, still
linked, no callback delivered yet. -/
def race_init (ret : CAStatus) : RaceSt :=
  { dead := false, inList := true, sawNotDead := false,
    finalRet := ret, events := [] }

/-! ## Helper lemmas -/

theorem isErr_false_iff (s : CAStatus) : s.isErr = false ↔ s = .success := by
  cases s <;> simp [CAStatus.isErr]

theorem translate_error_isErr (e : Errno) : (translate_error e).isErr = true := by
  cases e <;> rfl

/-- A device that accepts every proposed configuration, used to instantiate
concrete scenarios. -/
def devAccept : OssDev where
  openRes := none
  fd := 3
  getflRes := none
  setflRes := none
  setfmt := fun v => .ok v
  setchannels := fun v => .ok v
  setspeed := fun v => .ok v

/-! ## C3 — multichannel sources rejected before the device is touched -/

/-- C3: for every play request whose sample source reports a channel count
greater than 2, `open_oss` returns `NotSupported` immediately: the device
is never opened (`out->pcm` stays `-1`, the device-operation trace is
empty); moreover `open_oss` performs no device write on any input. -/
theorem C3_multichannel_rejected :
    (∀ dev file, 2 < file.nchannels →
        open_oss dev file = (.notSupported, -1, [])) ∧
    (∀ dev file, DevOp.write ∉ (open_oss dev file).2.2) := by
  constructor
  · intro dev file h
    simp [open_oss, h]
  · intro dev file
    unfold open_oss
    dsimp only
    repeat' split
    all_goals simp

/-- Witness for C3 at a concrete 3-channel source. -/
theorem C3_multichannel_rejected_witness :
    open_oss devAccept ⟨3, 44100, .s16ne, 6⟩ = (.notSupported, -1, []) ∧
    DevOp.write ∉ (open_oss devAccept ⟨3, 44100, .s16ne, 6⟩).2.2 :=
  ⟨C3_multichannel_rejected.1 devAccept ⟨3, 44100, .s16ne, 6⟩ (by decide),
   C3_multichannel_rejected.2 devAccept ⟨3, 44100, .s16ne, 6⟩⟩

/-! ## C4 — request/verify negotiation of format, channels, rate -/

/-- C4: `open_oss` proposes the source's encoding, channel count and sample
rate and reads back what the device accepted.  If the accepted encoding or
channel count differs from the request, it returns `NotSupported`; for the
sample rate it succeeds exactly when the accepted value is within 5% of the
request (`|accepted - requested| ≤ 0.05 * requested`, embedded exactly as
`20 * |accepted - requested| ≤ requested`), and returns `NotSupported`
otherwise. -/
theorem C4_negotiation_verify :
    (∀ dev file v, file.nchannels ≤ 2 →
        dev.openRes = none → dev.getflRes = none → dev.setflRes = none →
        dev.setfmt (afmt file.sampleType) = .ok v → v ≠ afmt file.sampleType →
        (open_oss dev file).1 = .notSupported) ∧
    (∀ dev file v, file.nchannels ≤ 2 →
        dev.openRes = none → dev.getflRes = none → dev.setflRes = none →
        dev.setfmt (afmt file.sampleType) = .ok (afmt file.sampleType) →
        dev.setchannels (file.nchannels : Int) = .ok v →
        v ≠ (file.nchannels : Int) →
        (open_oss dev file).1 = .notSupported) ∧
    (∀ dev file v, file.nchannels ≤ 2 →
        dev.openRes = none → dev.getflRes = none → dev.setflRes = none →
        dev.setfmt (afmt file.sampleType) = .ok (afmt file.sampleType) →
        dev.setchannels (file.nchannels : Int) = .ok (file.nchannels : Int) →
        dev.setspeed (file.rate : Int) = .ok v →
        (20 * (v - (file.rate : Int)).natAbs ≤ file.rate →
            (open_oss dev file).1 = .success) ∧
        (file.rate < 20 * (v - (file.rate : Int)).natAbs →
            (open_oss dev file).1 = .notSupported)) := by
  refine ⟨?_, ?_, ?_⟩
  · intro dev file v hch hopen hgetfl hsetfl hfmt hne
    simp [open_oss, Nat.not_lt.mpr hch, hopen, hgetfl, hsetfl, hfmt, hne]
  · intro dev file v hch hopen hgetfl hsetfl hfmt hchan hne
    simp [open_oss, Nat.not_lt.mpr hch, hopen, hgetfl, hsetfl, hfmt, hchan, hne]
  · intro dev file v hch hopen hgetfl hsetfl hfmt hchan hspeed
    constructor
    · intro hband
      simp [open_oss, Nat.not_lt.mpr hch, hopen, hgetfl, hsetfl, hfmt, hchan,
            hspeed, Nat.not_lt.mpr hband]
    · intro hband
      simp [open_oss, Nat.not_lt.mpr hch, hopen, hgetfl, hsetfl, hfmt, hchan,
            hspeed, hband]

/-- A device accepting everything but the sample rate, which it pins to a
fixed value; used to witness the negotiation claims concretely. -/
def devRate (r : Int) : OssDev :=
  { devAccept with setspeed := fun _ => .ok r }

/-- Witness for C4: a mono source at 44100 Hz against (i) a device that
flips the encoding, (ii) a device that doubles the channel count, (iii) a
device that accepts 43000 Hz (within 5%: succeeds) and one that accepts
40000 Hz (outside 5%: `NotSupported`). -/
theorem C4_negotiation_verify_witness :
    (open_oss { devAccept with setfmt := fun _ => .ok 8 }
        ⟨1, 44100, .s16ne, 2⟩).1 = .notSupported ∧
    (open_oss { devAccept with setchannels := fun _ => .ok 2 }
        ⟨1, 44100, .s16ne, 2⟩).1 = .notSupported ∧
    (open_oss (devRate 43000) ⟨1, 44100, .s16ne, 2⟩).1 = .success ∧
    (open_oss (devRate 40000) ⟨1, 44100, .s16ne, 2⟩).1 = .notSupported :=
  ⟨C4_negotiation_verify.1 { devAccept with setfmt := fun _ => .ok 8 }
      ⟨1, 44100, .s16ne, 2⟩ 8 (by decide) rfl rfl rfl rfl (by decide),
   C4_negotiation_verify.2.1 { devAccept with setchannels := fun _ => .ok 2 }
      ⟨1, 44100, .s16ne, 2⟩ 2 (by decide) rfl rfl rfl rfl rfl (by decide),
   (C4_negotiation_verify.2.2 (devRate 43000) ⟨1, 44100, .s16ne, 2⟩ 43000
      (by decide) rfl rfl rfl rfl rfl rfl).1 (by decide),
   (C4_negotiation_verify.2.2 (devRate 40000) ⟨1, 44100, .s16ne, 2⟩ 40000
      (by decide) rfl rfl rfl rfl rfl rfl).2 (by decide)⟩

/-! ## C9 — null callback with non-null userdata -/

/-- C9: `driver_play` with non-null `userdata` and null `cb` returns
`InvalidArgument` immediately and performs no side effect: nothing is
allocated or freed, nothing registered, no worker spawned, no device
operation performed. -/
theorem C9_null_callback_guard :
    ∀ env, driver_play env false true =
      { ret := .invalid, allocated := false, freeCall := none,
        registered := false, workerSpawned := false, devOps := [] } := by
  intro env
  rfl

/-! ## C10 — allocation-failure cleanup calls `outstanding_free(NULL)` -/

/-- An environment in which `ca_new0` fails and everything else would
succeed. -/
def allocFailEnv : PlayEnv where
  allocOk := false
  pipeOk := true
  pipe0fd := 5
  pipe1fd := 6
  lookupRes := .ok ⟨1, 44100, .s16ne, 2⟩
  dev := devAccept
  pthreadCreateRet := 0

/-- C10 (refuting the claim's safety part): when allocation of the
outstanding structure fails, `driver_play` does return `OutOfMemory`, but
its `finish:` cleanup invokes `outstanding_free` with the still-NULL `out`
pointer (oss.c:418-421 jumps to oss.c:461-462 with `out == NULL`), and the
entry assertion `ca_assert(o)` of `outstanding_free` (oss.c:83) fails
there. -/
theorem C10_alloc_failure_frees_null :
    (driver_play allocFailEnv true false).ret = .oom ∧
    (driver_play allocFailEnv true false).freeCall = some none ∧
    (outstanding_free none).1 = false :=
  ⟨rfl, rfl, rfl⟩

/-! ## C6 — readiness-wait and threading failures -/

/-- An environment in which everything succeeds except `pthread_create`. -/
def threadFailEnv : PlayEnv where
  allocOk := true
  pipeOk := true
  pipe0fd := 5
  pipe1fd := 6
  lookupRes := .ok ⟨1, 44100, .s16ne, 2⟩
  dev := devAccept
  pthreadCreateRet := -1

/-- C6 counterexample: when worker-thread creation fails, `driver_play`
returns `OutOfMemory` (oss.c:447 sets `ret = CA_ERROR_OOM`), not
`SystemError` as the claim states. -/
theorem C6_thread_failure_counterexample :
    (driver_play threadFailEnv true true).ret = .oom ∧
    CAStatus.oom ≠ CAStatus.system :=
  ⟨rfl, by decide⟩

/-- C6 (amended): a `pipe` creation failure makes `driver_play` return
`SystemError`; a `poll` failure makes the worker loop exit with
`SystemError`; but a `pthread_create` failure makes `driver_play` return
`OutOfMemory`. -/
theorem C6_system_failures :
    (∀ env hasCb hasUd, (hasUd && !hasCb) = false → env.allocOk = true →
        env.pipeOk = false → (driver_play env hasCb hasUd).ret = .system) ∧
    (∀ deadSeq fuel i st po ps, st.polls = po :: ps → deadSeq i = false →
        po.ret < 0 →
        run_loop deadSeq (fuel + 1) i st =
          some (.system, .pollFail, { st with polls := ps })) ∧
    (∀ env hasCb hasUd file, (hasUd && !hasCb) = false → env.allocOk = true →
        env.pipeOk = true → env.lookupRes = .ok file →
        (open_oss env.dev file).1.isErr = false → env.pthreadCreateRet < 0 →
        (driver_play env hasCb hasUd).ret = .oom) := by
  refine ⟨?_, ?_, ?_⟩
  · intro env hasCb hasUd hguard halloc hpipe
    simp [driver_play, hguard, halloc, hpipe]
  · intro deadSeq fuel i st po ps hpolls hdead hret
    simp [run_loop, loop_body, hpolls, hdead, hret]
  · intro env hasCb hasUd file hguard halloc hpipe hlookup hneg hthread
    simp [driver_play, hguard, halloc, hpipe, hlookup, hneg, hthread]

/-- Witness for C6 (amended) at concrete inputs: a failing pipe, a failing
poll, and the thread-creation failure environment. -/
theorem C6_system_failures_witness :
    (driver_play { threadFailEnv with pipeOk := false } true true).ret = .system ∧
    run_loop (fun _ => false) 1 0 ⟨0, 0, [⟨-1, 0, 0⟩], [], []⟩ =
      some (.system, .pollFail, ⟨0, 0, [], [], []⟩) ∧
    (driver_play threadFailEnv true true).ret = .oom :=
  ⟨C6_system_failures.1 { threadFailEnv with pipeOk := false } true true
      (by decide) rfl rfl,
   C6_system_failures.2.1 (fun _ => false) 0 0 ⟨0, 0, [⟨-1, 0, 0⟩], [], []⟩
      ⟨-1, 0, 0⟩ [] rfl rfl (by decide),
   C6_system_failures.2.2 threadFailEnv true true ⟨1, 44100, .s16ne, 2⟩
      (by decide) rfl rfl rfl (by decide) (by decide)⟩

/-! ## C1 — exactly-once callback delivery and the finish-path race -/

/-- C1 (refuting exactly-once): the worker's finish path reads `out->dead`
and fires its callback without holding the registry mutex (oss.c:387-389;
the lock is only taken at oss.c:391), so `driver_cancel`'s locked scan can
run between the read and the callback.  First conjunct: in that
interleaving the request's callback fires twice — `Canceled` from the
cancel path, then the worker's own final status.  The remaining conjuncts
show the two non-racing schedules deliver exactly one callback each, so
the `dead` flag arbitrates correctly only when the cancel does not land
inside the worker's unlocked window. -/
theorem C1_finish_race_double_callback :
    (race_run (race_init .success)
        [.wCheckDead, .cancelScan, .wCallback, .wDeregister]).events =
      [.canceled, .success] ∧
    (race_run (race_init .success)
        [.wCheckDead, .wCallback, .wDeregister, .cancelScan]).events =
      [.success] ∧
    (race_run (race_init .success)
        [.cancelScan, .wCheckDead, .wCallback, .wDeregister]).events =
      [.canceled] :=
  ⟨rfl, rfl, rfl⟩

/-! ## C7 — cancel broadcast semantics -/

/-- The per-entry marking, rephrased as a propositional conditional. -/
theorem mark_dead_one_eq (s : CAStatus) (hit : Outstanding → Bool) (o : Outstanding) :
    (mark_dead_one s hit o).1 =
      if hit o = true ∧ o.dead = false
      then { o with dead := true, pipe1 := -1 } else o := by
  by_cases h1 : hit o <;> by_cases h2 : o.dead <;> simp [mark_dead_one, h1, h2]

/-- The events fired by a locked scan are exactly one per live, matching,
callback-bearing entry, in registry order. -/
theorem mark_dead_all_events (s : CAStatus) (hit : Outstanding → Bool)
    (reg : List Outstanding) :
    (mark_dead_all s hit reg).2 =
      (reg.filter (fun o => hit o && !o.dead && o.hasCallback)).map
        (fun o => ⟨o.id, s⟩) := by
  induction reg with
  | nil => rfl
  | cons o t ih =>
    cases h1 : hit o <;> cases h2 : o.dead <;> cases h3 : o.hasCallback <;>
      simp_all [mark_dead_all, mark_dead_one, List.filter_cons]

/-- C7: `driver_cancel(id)` always returns `Success`; under the lock it maps
the registry to itself with every live entry of matching id marked dead
and its cancellation pipe closed (all other entries untouched); it fires
exactly one `Canceled` callback, synchronously and in registry order, per
live matching entry that has a callback; and when no live entry matches
(in particular when the request already completed and left the registry,
or is already dead) it changes nothing and fires nothing. -/
theorem C7_cancel_broadcast :
    (∀ reg id, (driver_cancel reg id).2 = .success) ∧
    (∀ reg id, (driver_cancel reg id).1.1 =
        reg.map (fun o => if o.id = id ∧ o.dead = false
          then { o with dead := true, pipe1 := -1 } else o)) ∧
    (∀ reg id, (driver_cancel reg id).1.2 =
        (reg.filter (fun o => o.id == id && !o.dead && o.hasCallback)).map
          (fun o => ⟨o.id, .canceled⟩)) ∧
    (∀ reg id, (∀ o ∈ reg, o.id = id → o.dead = true) →
        (driver_cancel reg id).1 = (reg, [])) := by
  refine ⟨fun reg id => rfl, ?_, ?_, ?_⟩
  · intro reg id
    simp only [driver_cancel, mark_dead_all]
    refine List.map_congr_left (fun o _ => ?_)
    rw [mark_dead_one_eq]
    by_cases h1 : o.id = id <;> by_cases h2 : o.dead <;> simp [h1, h2]
  · intro reg id
    exact mark_dead_all_events .canceled (fun o => o.id == id) reg
  · intro reg id hnone
    have hfix : ∀ o ∈ reg, (mark_dead_one .canceled (fun o => o.id == id) o).1 = o := by
      intro o ho
      rw [mark_dead_one_eq]
      by_cases h1 : o.id = id
      · simp [hnone o ho h1]
      · simp [h1]
    have h1 : (driver_cancel reg id).1.1 = reg := by
      simp only [driver_cancel, mark_dead_all]
      induction reg with
      | nil => rfl
      | cons a t ih =>
        simp only [List.map_cons, hfix a (by simp)]
        rw [ih (fun o ho hid => hnone o (by simp [ho]) hid)
              (fun o ho => hfix o (by simp [ho]))]
    have h2 : (driver_cancel reg id).1.2 = [] := by
      show (mark_dead_all .canceled (fun o => o.id == id) reg).2 = []
      rw [mark_dead_all_events]
      have : reg.filter (fun o => o.id == id && !o.dead && o.hasCallback) = [] := by
        rw [List.filter_eq_nil_iff]
        intro o ho
        by_cases hid : o.id = id
        · simp [hnone o ho hid]
        · simp [hid]
      rw [this]
      rfl
    exact Prod.ext h1 h2

/-- Witness for C7 on a concrete registry holding two live entries with
id 7, one live entry with id 8 and one already-dead entry with id 7. -/
theorem C7_cancel_broadcast_witness :
    (driver_cancel [⟨7, false, true, 9⟩, ⟨8, false, true, 9⟩,
        ⟨7, true, true, -1⟩, ⟨7, false, false, 9⟩] 7).2 = .success ∧
    (driver_cancel [⟨7, false, true, 9⟩, ⟨8, false, true, 9⟩,
        ⟨7, true, true, -1⟩, ⟨7, false, false, 9⟩] 7).1.1 =
      [⟨7, true, true, -1⟩, ⟨8, false, true, 9⟩,
       ⟨7, true, true, -1⟩, ⟨7, true, false, -1⟩] ∧
    (driver_cancel [⟨7, false, true, 9⟩, ⟨8, false, true, 9⟩,
        ⟨7, true, true, -1⟩, ⟨7, false, false, 9⟩] 7).1.2 = [⟨7, .canceled⟩] ∧
    (driver_cancel [⟨8, false, true, 9⟩, ⟨7, true, true, -1⟩] 7).1 =
      ([⟨8, false, true, 9⟩, ⟨7, true, true, -1⟩], []) := by
  refine ⟨C7_cancel_broadcast.1 _ 7, ?_, ?_, C7_cancel_broadcast.2.2.2 _ 7 (by decide)⟩
  · rw [C7_cancel_broadcast.2.1 _ 7]
    decide
  · rw [C7_cancel_broadcast.2.2.1 _ 7]
    decide

/-! ## C2 — destroy broadcast and drain protocol -/

/-- C2: the destroy broadcast marks every live entry dead (closing its
cancellation pipe) and leaves dead entries untouched; it fires one
`Destroyed` callback per live callback-bearing entry; the drain loop,
given the registry contents observed under the lock at entry and after
each `sem_wait` wakeup, terminates after `k` waits only when the `k`-th
observation is actually empty, every earlier observation being non-empty
(so a wakeup with a non-empty registry never terminates the wait); and a
deregistering worker posts the semaphore exactly when the registry it
leaves behind is empty and a drain is pending. -/
theorem C2_destroy_drain :
    (∀ reg, (destroy_broadcast reg).1 =
        reg.map (fun o => if o.dead = false
          then { o with dead := true, pipe1 := -1 } else o)) ∧
    (∀ reg, (destroy_broadcast reg).2 =
        (reg.filter (fun o => !o.dead && o.hasCallback)).map
          (fun o => ⟨o.id, .destroyed⟩)) ∧
    (∀ obs k, drain_loop obs = some k →
        obs.get? k = some [] ∧ ∀ j, j < k → ∃ r, obs.get? j = some r ∧ r ≠ []) ∧
    (∀ reg i signal, (worker_unregister reg i signal).2 = true ↔
        ((worker_unregister reg i signal).1 = [] ∧ signal = true)) := by
  refine ⟨?_, ?_, ?_, ?_⟩
  · intro reg
    simp only [destroy_broadcast, mark_dead_all]
    refine List.map_congr_left (fun o _ => ?_)
    rw [mark_dead_one_eq]
    by_cases h2 : o.dead <;> simp [h2]
  · intro reg
    exact mark_dead_all_events .destroyed (fun _ => true) reg
  · intro obs
    induction obs with
    | nil => intro k h; simp [drain_loop] at h
    | cons reg rest ih =>
      intro k h
      by_cases hreg : reg = []
      · simp [drain_loop, hreg] at h
        subst h
        simp [hreg]
      · simp only [drain_loop, if_neg hreg, Option.map_eq_some'] at h
        obtain ⟨k', hk', rfl⟩ := h
        obtain ⟨hempty, hbefore⟩ := ih k' hk'
        refine ⟨hempty, ?_⟩
        intro j hj
        match j with
        | 0 => exact ⟨reg, rfl, hreg⟩
        | j' + 1 => exact hbefore j' (by omega)
  · intro reg i signal
    simp [worker_unregister, List.isEmpty_iff]

/-- Witness for C2 on concrete data: a two-entry registry (one live, one
dead), a drain observing a non-empty registry at entry and after the
first wakeup and an empty one after the second, and the two deregistration
outcomes. -/
theorem C2_destroy_drain_witness :
    (destroy_broadcast [⟨7, false, true, 9⟩, ⟨8, true, false, -1⟩]).1 =
      [⟨7, true, true, -1⟩, ⟨8, true, false, -1⟩] ∧
    (destroy_broadcast [⟨7, false, true, 9⟩, ⟨8, true, false, -1⟩]).2 =
      [⟨7, .destroyed⟩] ∧
    ([[⟨7, true, true, -1⟩], [⟨7, true, true, -1⟩], []] :
        List (List Outstanding)).get? 2 = some [] ∧
    (∀ j, j < 2 → ∃ r, ([[⟨7, true, true, -1⟩], [⟨7, true, true, -1⟩], []] :
        List (List Outstanding)).get? j = some r ∧ r ≠ []) ∧
    ((worker_unregister [⟨7, true, true, -1⟩] 0 true).2 = true ↔
        ((worker_unregister [⟨7, true, true, -1⟩] 0 true).1 = [] ∧ True)) := by
  refine ⟨?_, ?_, ?_, ?_, ?_⟩
  · rw [C2_destroy_drain.1]; decide
  · rw [C2_destroy_drain.2.1]; decide
  · exact (C2_destroy_drain.2.2.1 _ 2 (by decide)).1
  · exact (C2_destroy_drain.2.2.1 _ 2 (by decide)).2
  · simpa using C2_destroy_drain.2.2.2 [⟨7, true, true, -1⟩] 0 true

/-! ## C8 — resource release on every failing play path -/

/-- C8: on every exit path of `driver_play` that does not return `Success`
— given the argument guard passed and the outstanding structure was
allocated — the `finish:` cleanup hands the actual outstanding record to
`outstanding_free`, whose assertion holds and which releases the sample
source and closes the device handle whenever they were acquired; no
request stays registered and no worker is spawned.  The second conjunct
specializes to `open_oss` failures: the freed record carries the sample
source and exactly the device descriptor `open_oss` left in `out->pcm`,
so a device handle opened during failed negotiation is closed before the
play call returns. -/
theorem C8_failure_paths_release :
    (∀ env hasCb hasUd, (hasUd && !hasCb) = false → env.allocOk = true →
        (driver_play env hasCb hasUd).ret ≠ .success →
        ∃ o, (driver_play env hasCb hasUd).freeCall = some (some o) ∧
          (outstanding_free (some o)).1 = true ∧
          (outstanding_free (some o)).2.closedFile = o.file.isSome ∧
          (outstanding_free (some o)).2.closedPcm = decide (0 ≤ o.pcm) ∧
          (driver_play env hasCb hasUd).registered = false ∧
          (driver_play env hasCb hasUd).workerSpawned = false) ∧
    (∀ env hasCb hasUd file, (hasUd && !hasCb) = false → env.allocOk = true →
        env.pipeOk = true → env.lookupRes = .ok file →
        (open_oss env.dev file).1.isErr = true →
        ∃ o, (driver_play env hasCb hasUd).freeCall = some (some o) ∧
          o.file = some file ∧ o.pcm = (open_oss env.dev file).2.1 ∧
          (outstanding_free (some o)).2.closedFile = true ∧
          (outstanding_free (some o)).2.closedPcm = decide (0 ≤ o.pcm)) := by
  constructor
  · intro env hasCb hasUd hguard halloc hret
    by_cases hpipe : env.pipeOk
    · match hlk : env.lookupRes with
      | .error e =>
        refine ⟨⟨-1, (env.pipe0fd : Int), (env.pipe1fd : Int), none⟩, ?_⟩
        simp [driver_play, hguard, halloc, hpipe, hlk, outstanding_free]
      | .ok file =>
        by_cases hneg : (open_oss env.dev file).1.isErr
        · refine ⟨⟨(open_oss env.dev file).2.1, (env.pipe0fd : Int),
              (env.pipe1fd : Int), some file⟩, ?_⟩
          simp [driver_play, hguard, halloc, hpipe, hlk, hneg, outstanding_free]
        · by_cases hth : env.pthreadCreateRet < 0
          · refine ⟨⟨(open_oss env.dev file).2.1, (env.pipe0fd : Int),
                (env.pipe1fd : Int), some file⟩, ?_⟩
            simp [driver_play, hguard, halloc, hpipe, hlk, hneg, hth,
                  outstanding_free]
          · exact absurd (by simp [driver_play, hguard, halloc, hpipe, hlk,
              hneg, hth]) hret
    · refine ⟨⟨-1, -1, -1, none⟩, ?_⟩
      simp [driver_play, hguard, halloc, hpipe, outstanding_free]
  · intro env hasCb hasUd file hguard halloc hpipe hlk hneg
    refine ⟨⟨(open_oss env.dev file).2.1, (env.pipe0fd : Int),
        (env.pipe1fd : Int), some file⟩, ?_⟩
    simp [driver_play, hguard, halloc, hpipe, hlk, hneg, outstanding_free]

/-- Witness for C8: a play call against a device that accepts only a far-off
sample rate; negotiation fails with the device open (`out->pcm = 3`), and
the cleanup record carries both the source and that descriptor. -/
theorem C8_failure_paths_release_witness :
    (∃ o, (driver_play { threadFailEnv with dev := devRate 100 } true true).freeCall =
          some (some o) ∧
        (outstanding_free (some o)).1 = true ∧
        (outstanding_free (some o)).2.closedFile = o.file.isSome ∧
        (outstanding_free (some o)).2.closedPcm = decide (0 ≤ o.pcm) ∧
        (driver_play { threadFailEnv with dev := devRate 100 } true true).registered = false ∧
        (driver_play { threadFailEnv with dev := devRate 100 } true true).workerSpawned = false) ∧
    (∃ o, (driver_play { threadFailEnv with dev := devRate 100 } true true).freeCall =
          some (some o) ∧
        o.file = some ⟨1, 44100, .s16ne, 2⟩ ∧
        o.pcm = (open_oss (devRate 100) ⟨1, 44100, .s16ne, 2⟩).2.1 ∧
        (outstanding_free (some o)).2.closedFile = true ∧
        (outstanding_free (some o)).2.closedPcm = decide (0 ≤ o.pcm)) :=
  ⟨C8_failure_paths_release.1 { threadFailEnv with dev := devRate 100 } true true
      (by decide) rfl (by decide),
   C8_failure_paths_release.2 { threadFailEnv with dev := devRate 100 } true true
      ⟨1, 44100, .s16ne, 2⟩ (by decide) rfl rfl rfl (by decide)⟩

/-! ## C5 — streaming-loop exit characterization -/

/-- The exit characterization of the worker loop when the request is never
cancelled or destroyed (`dead` always reads `false`) and the cancellation
pipe never signals: the loop exits `Success` exactly when it exits at end
of stream; an end-of-stream exit is caused by the last consumed source
read returning 0 bytes with a non-error status; and a read-failure exit
returns precisely the failing read's status. -/
theorem run_loop_spec :
    ∀ fuel i st s c st',
      (∀ po ∈ st.polls, po.rev0 = 0) →
      run_loop (fun _ => false) fuel i st = some (s, c, st') →
      ((s = .success ↔ c = .eof) ∧
       (c = .eof → ∃ pre r, st.reads = pre ++ r :: st'.reads ∧
           r.ret.isErr = false ∧ r.bytes = 0) ∧
       (c = .readFail → ∃ pre r, st.reads = pre ++ r :: st'.reads ∧
           r.ret.isErr = true ∧ s = r.ret)) := by
  intro fuel
  induction fuel with
  | zero =>
    intro i st s c st' h0 hrun
    simp [run_loop] at hrun
  | succ fuel ih =>
    intro i st s c st' h0 hrun
    simp only [run_loop] at hrun
    cases hp : st.polls with
    | nil =>
      rw [show loop_body ((fun _ => false) i) st = .stuck by
            simp [loop_body, hp]] at hrun
      simp at hrun
    | cons po ps =>
      have hrev0 : po.rev0 = 0 := h0 po (by rw [hp]; exact List.mem_cons_self po ps)
      have h0' : ∀ q ∈ ps, q.rev0 = 0 := fun q hq =>
        h0 q (by rw [hp]; exact List.mem_cons_of_mem po hq)
      by_cases hpr : po.ret < 0
      · rw [show loop_body ((fun _ => false) i) st
              = .exit .system .pollFail { st with polls := ps } by
            simp [loop_body, hp, hpr]] at hrun
        simp only [Option.some.injEq, Prod.mk.injEq] at hrun
        obtain ⟨rfl, rfl, rfl⟩ := hrun
        exact ⟨by simp, by simp, by simp⟩
      · by_cases hrev1 : po.rev1 ≠ POLLOUT
        · rw [show loop_body ((fun _ => false) i) st
                = .exit .io .notWritable { st with polls := ps } by
              simp [loop_body, hp, hpr, hrev0, hrev1]] at hrun
          simp only [Option.some.injEq, Prod.mk.injEq] at hrun
          obtain ⟨rfl, rfl, rfl⟩ := hrun
          exact ⟨by simp, by simp, by simp⟩
        · by_cases hnb : st.nbytes = 0
          · -- refill from the source
            cases hr : st.reads with
            | nil =>
              rw [show loop_body ((fun _ => false) i) st = .stuck by
                    simp [loop_body, hp, hpr, hrev0, hrev1, hnb, hr]] at hrun
              simp at hrun
            | cons r rs =>
              by_cases herr : r.ret.isErr
              · rw [show loop_body ((fun _ => false) i) st
                      = .exit r.ret .readFail { st with polls := ps, reads := rs } by
                    simp [loop_body, hp, hpr, hrev0, hrev1, hnb, hr, herr]] at hrun
                simp only [Option.some.injEq, Prod.mk.injEq] at hrun
                obtain ⟨rfl, rfl, rfl⟩ := hrun
                have hne : r.ret ≠ .success := by
                  intro h
                  rw [h] at herr
                  simp [CAStatus.isErr] at herr
                exact ⟨iff_of_false hne (by simp), by simp,
                       fun _ => ⟨[], r, by simp [hr], herr, rfl⟩⟩
              · by_cases hb : r.bytes = 0
                · rw [show loop_body ((fun _ => false) i) st
                        = .exit .success .eof { st with polls := ps, reads := rs } by
                      simp [loop_body, hp, hpr, hrev0, hrev1, hnb, hr, herr, hb]] at hrun
                  simp only [Option.some.injEq, Prod.mk.injEq] at hrun
                  obtain ⟨rfl, rfl, rfl⟩ := hrun
                  exact ⟨iff_of_true rfl rfl,
                         fun _ => ⟨[], r, by simp [hr], by simpa using herr, hb⟩,
                         by simp⟩
                · -- refill succeeded with data; proceed to the write stage
                  cases hw : st.writes with
                  | nil =>
                    rw [show loop_body ((fun _ => false) i) st = .stuck by
                          simp [loop_body, write_step, hp, hpr, hrev0, hrev1,
                                hnb, hr, herr, hb, hw]] at hrun
                    simp at hrun
                  | cons w ws =>
                    by_cases hwr : w.ret ≤ 0
                    · rw [show loop_body ((fun _ => false) i) st
                            = .exit (translate_error w.errn) .writeFail
                                { st with polls := ps, reads := rs,
                                          nbytes := r.bytes, cursor := 0,
                                          writes := ws } by
                          simp [loop_body, write_step, hp, hpr, hrev0, hrev1,
                                hnb, hr, herr, hb, hw, hwr]] at hrun
                      simp only [Option.some.injEq, Prod.mk.injEq] at hrun
                      obtain ⟨rfl, rfl, rfl⟩ := hrun
                      have hne : translate_error w.errn ≠ .success := by
                        intro h
                        have := translate_error_isErr w.errn
                        rw [h] at this
                        simp [CAStatus.isErr] at this
                      exact ⟨iff_of_false hne (by simp), by simp, by simp⟩
                    · rw [show loop_body ((fun _ => false) i) st
                            = .cont { st with polls := ps, reads := rs,
                                              writes := ws,
                                              nbytes := r.bytes - w.ret.toNat,
                                              cursor := 0 + w.ret.toNat } by
                          simp [loop_body, write_step, hp, hpr, hrev0, hrev1,
                                hnb, hr, herr, hb, hw, hwr]] at hrun
                      obtain ⟨c1, c2, c3⟩ := ih (i + 1) _ s c st' (by simpa using h0') hrun
                      refine ⟨c1, ?_, ?_⟩
                      · intro hc
                        obtain ⟨pre, r', hdec, h1, h2⟩ := c2 hc
                        have hdec' : rs = pre ++ r' :: st'.reads := by simpa using hdec
                        exact ⟨r :: pre, r', by simp [hr, hdec'], h1, h2⟩
                      · intro hc
                        obtain ⟨pre, r', hdec, h1, h2⟩ := c3 hc
                        have hdec' : rs = pre ++ r' :: st'.reads := by simpa using hdec
                        exact ⟨r :: pre, r', by simp [hr, hdec'], h1, h2⟩
          · -- buffered data remains: straight to the write stage
            cases hw : st.writes with
            | nil =>
              rw [show loop_body ((fun _ => false) i) st = .stuck by
                    simp [loop_body, write_step, hp, hpr, hrev0, hrev1, hnb, hw]] at hrun
              simp at hrun
            | cons w ws =>
              by_cases hwr : w.ret ≤ 0
              · rw [show loop_body ((fun _ => false) i) st
                      = .exit (translate_error w.errn) .writeFail
                          { st with polls := ps, writes := ws } by
                    simp [loop_body, write_step, hp, hpr, hrev0, hrev1, hnb,
                          hw, hwr]] at hrun
                simp only [Option.some.injEq, Prod.mk.injEq] at hrun
                obtain ⟨rfl, rfl, rfl⟩ := hrun
                have hne : translate_error w.errn ≠ .success := by
                  intro h
                  have := translate_error_isErr w.errn
                  rw [h] at this
                  simp [CAStatus.isErr] at this
                exact ⟨iff_of_false hne (by simp), by simp, by simp⟩
              · rw [show loop_body ((fun _ => false) i) st
                      = .cont { st with polls := ps, writes := ws,
                                        nbytes := st.nbytes - w.ret.toNat,
                                        cursor := st.cursor + w.ret.toNat } by
                    simp [loop_body, write_step, hp, hpr, hrev0, hrev1, hnb,
                          hw, hwr]] at hrun
                obtain ⟨c1, c2, c3⟩ := ih (i + 1) _ s c st' (by simpa using h0') hrun
                exact ⟨c1, by simpa using c2, by simpa using c3⟩

/-- C5: for a worker whose request is never cancelled or destroyed (the
`dead` flag always reads false and the cancellation pipe never signals),
the streaming loop exits with `Success` exactly when it exits at end of
stream, i.e. when the last consumed source read returned 0 bytes; a failed
read exits the loop with precisely that read's error status; each refill
reads up to `data_size = (BUFSIZE/fs)*fs` bytes — `BUFSIZE` rounded down
to a whole-frame boundary; and an iteration that still holds buffered
bytes and completes a partial device write of `w` bytes continues with the
buffer count decreased by `w` and the cursor advanced by `w`, consuming no
source read. -/
theorem C5_streaming_loop_exit :
    (∀ fuel i st s c st',
        (∀ po ∈ st.polls, po.rev0 = 0) →
        run_loop (fun _ => false) fuel i st = some (s, c, st') →
        ((s = .success ↔ c = .eof) ∧
         (c = .eof → ∃ pre r, st.reads = pre ++ r :: st'.reads ∧
             r.ret.isErr = false ∧ r.bytes = 0) ∧
         (c = .readFail → ∃ pre r, st.reads = pre ++ r :: st'.reads ∧
             r.ret.isErr = true ∧ s = r.ret))) ∧
    (∀ fs, data_size fs % fs = 0 ∧ data_size fs ≤ BUFSIZE) ∧
    (∀ fuel i st po ps w ws,
        st.polls = po :: ps → ¬ po.ret < 0 → po.rev0 = 0 → po.rev1 = POLLOUT →
        st.nbytes ≠ 0 → st.writes = w :: ws → ¬ w.ret ≤ 0 →
        run_loop (fun _ => false) (fuel + 1) i st =
          run_loop (fun _ => false) fuel (i + 1)
            { st with polls := ps, writes := ws,
                      nbytes := st.nbytes - w.ret.toNat,
                      cursor := st.cursor + w.ret.toNat }) := by
  refine ⟨run_loop_spec, ?_, ?_⟩
  · intro fs
    exact ⟨Nat.mul_mod_left _ _, Nat.div_mul_le_self _ _⟩
  · intro fuel i st po ps w ws hp hpr hrev0 hrev1 hnb hw hwr
    simp only [run_loop]
    rw [show loop_body ((fun _ => false) i) st
          = .cont { st with polls := ps, writes := ws,
                            nbytes := st.nbytes - w.ret.toNat,
                            cursor := st.cursor + w.ret.toNat } by
        simp [loop_body, write_step, hp, hpr, hrev0, hrev1, hnb, hw, hwr]]

/-- Witness for C5: a run reaching end of stream on its first read (the
`Success`/eof correspondence at a concrete run), the frame rounding at
`fs = 6`, and a concrete partial-write iteration (10 buffered bytes,
write returns 4) that leaves 6 bytes, advances the cursor to 4 and keeps
the read list untouched. -/
theorem C5_streaming_loop_exit_witness :
    (CAStatus.success = .success ↔ ExitCause.eof = .eof) ∧
    (data_size 6 % 6 = 0 ∧ data_size 6 ≤ BUFSIZE) ∧
    run_loop (fun _ => false) 1 0 ⟨10, 0, [⟨1, 0, 4⟩], [⟨.success, 512⟩], [⟨4, .other⟩]⟩ =
      run_loop (fun _ => false) 0 1 ⟨6, 4, [], [⟨.success, 512⟩], []⟩ :=
  ⟨(C5_streaming_loop_exit.1 2 0 ⟨0, 0, [⟨1, 0, 4⟩], [⟨.success, 0⟩], []⟩
      .success .eof ⟨0, 0, [], [], []⟩ (by decide) (by decide)).1,
   C5_streaming_loop_exit.2.1 6,
   C5_streaming_loop_exit.2.2 0 0 ⟨10, 0, [⟨1, 0, 4⟩], [⟨.success, 512⟩], [⟨4, .other⟩]⟩
      ⟨1, 0, 4⟩ [] ⟨4, .other⟩ [] rfl (by decide) rfl rfl (by decide) rfl (by decide)⟩

end VizAudio
